import Mathlib

/-
Verification of the lobsec SDK client library.

The Python source is shallowly embedded as follows.

* Decimal monetary amounts (Python floats routed through a decimal-string
  intermediate) become rationals (ℚ); on-chain unsigned integer readings
  become ℕ; signed ledger-unit integers become ℤ.
* Python `int(...)` truncation toward zero is `ratTrunc`; Python
  `round(x, 2)` (round-half-to-even at the second decimal) is `round2`.
* A function that can raise is embedded with an `Except SdkError` result;
  the abstract error taxonomy of the SDK (InvalidAmount, TransactionFailure)
  is the inductive `SdkError`.
* The external ledger is opaque: read results are structure fields
  (`PoolView`, `AgentInfo`, `RegistryView`), the premium formula of the
  pool contract is an opaque function field of `PoolContract`, and the
  write flows are embedded as trace-producing functions over a `ChainEnv`
  that decides which RPC steps succeed; each external submission or wait
  appears as one `ChainEvent` in program order, and a failing step aborts
  the remainder (exception propagation).
-/

namespace LobsecSdk

/-- Truncation of a rational toward zero, the behaviour of Python `int()`
applied to an exact decimal value. -/
def ratTrunc (q : ℚ) : ℤ := if 0 ≤ q then ⌊q⌋ else ⌈q⌉

/-- Round-half-to-even of a rational to an integer, the behaviour of Python
`round` on an exact decimal value. -/
def roundHalfEven (q : ℚ) : ℤ :=
  let f := ⌊q⌋
  let r := q - (f : ℚ)
  if r < 1 / 2 then f
  else if 1 / 2 < r then f + 1
  else if f % 2 = 0 then f else f + 1

/-- Python `round(x, 2)`: round half to even at two decimal places. -/
def round2 (q : ℚ) : ℚ := (roundHalfEven (q * 100) : ℚ) / 100

/-- Abstract error taxonomy of the SDK (spec section 7). `invalidAmount`
stands for the rejection of a bad monetary input (the Python `ValueError`),
`transactionFailure` for any RPC submission or receipt-wait failure. -/
inductive SdkError
  | invalidAmount
  | transactionFailure
  deriving DecidableEq

namespace InsurancePool

/-- `InsurancePool.USDC_DECIMALS = 6`. -/
def USDC_DECIMALS : ℕ := 6

/-- Embeds `InsurancePool._to_usdc_units`:
`int(Decimal(str(amount)) * Decimal(10 ** self.USDC_DECIMALS))`.
The decimal-string intermediate makes the scaling exact, so the body is
truncation of the exactly scaled rational. -/
def to_usdc_units (amount : ℚ) : ℤ :=
  ratTrunc (amount * (10 : ℚ) ^ USDC_DECIMALS)

/-- Embeds `InsurancePool._from_usdc_units`:
`float(Decimal(amount) / Decimal(10 ** self.USDC_DECIMALS))`. -/
def from_usdc_units (amount : ℤ) : ℚ :=
  (amount : ℚ) / (10 : ℚ) ^ USDC_DECIMALS

/-- Run-level view of `_to_usdc_units`: the Python body contains no
validation branch and no raise; for every finite numeric input it returns
the truncated integer, so the fallible embedding always succeeds. -/
def to_usdc_units_run (amount : ℚ) : Except SdkError ℤ :=
  Except.ok (to_usdc_units amount)

/-- Raw integer ledger readings used by `get_pool_info`: the results of the
`totalReserves`, `totalCoverageProvided` and `getAvailableCapacity` calls
(uint256 values, hence ℕ). -/
structure PoolView where
  totalReserves : ℕ
  totalCoverageProvided : ℕ
  availableCapacity : ℕ

/-- The dictionary returned by `InsurancePool.get_pool_info`. -/
structure PoolInfo where
  total_reserves_usd : ℚ
  total_coverage_usd : ℚ
  available_capacity_usd : ℚ
  utilization_percent : ℚ

/-- Embeds `InsurancePool.get_pool_info`: utilization starts at 0 and is
overwritten with `(total_coverage / total_reserves) * 100` when
`total_reserves > 0`; the returned field is `round(utilization, 2)`. -/
def get_pool_info (p : PoolView) : PoolInfo :=
  let utilization : ℚ :=
    if 0 < p.totalReserves then
      ((p.totalCoverageProvided : ℚ) / (p.totalReserves : ℚ)) * 100
    else 0
  { total_reserves_usd := from_usdc_units (p.totalReserves : ℤ)
    total_coverage_usd := from_usdc_units (p.totalCoverageProvided : ℤ)
    available_capacity_usd := from_usdc_units (p.availableCapacity : ℤ)
    utilization_percent := round2 utilization }

/-- The opaque premium formula of the external pool contract:
`calculatePremium(amount_units, duration_seconds, risk_score)` returning a
premium in ledger units (uint256, hence ℕ). The SDK never reimplements it. -/
structure PoolContract where
  calculatePremium : ℤ → ℕ → ℕ → ℕ

/-- Embeds `InsurancePool.calculate_premium`: scale the amount to ledger
units, convert days to seconds, evaluate the contract formula read-only,
scale the result back. -/
def calculate_premium (c : PoolContract) (amount : ℚ) (duration_days : ℕ)
    (risk_score : ℕ) : ℚ :=
  let amount_units := to_usdc_units amount
  let duration_seconds := duration_days * 24 * 60 * 60
  from_usdc_units (c.calculatePremium amount_units duration_seconds risk_score : ℤ)

/-- The raw result tuple of the staking contract `getAgentInfo` call:
staked amount, privilege level, active coverage, available coverage
(ledger units) and the can-request-coverage flag. -/
structure AgentInfo where
  stakedAmount : ℕ
  privilegeLevel : ℕ
  activeCoverage : ℕ
  availableCoverage : ℕ
  canRequestCoverage : Bool

/-- The dictionary returned by `InsurancePool.get_agent_coverage_info`. -/
structure CoverageInfo where
  staked_amount_usd : ℚ
  privilege_level : ℕ
  active_coverage_usd : ℚ
  available_coverage_usd : ℚ
  can_request_coverage : Bool

/-- Embeds `InsurancePool.get_agent_coverage_info`: unit-converts the
monetary components of the `getAgentInfo` tuple. -/
def get_agent_coverage_info (info : AgentInfo) : CoverageInfo :=
  { staked_amount_usd := from_usdc_units (info.stakedAmount : ℤ)
    privilege_level := info.privilegeLevel
    active_coverage_usd := from_usdc_units (info.activeCoverage : ℤ)
    available_coverage_usd := from_usdc_units (info.availableCoverage : ℤ)
    can_request_coverage := info.canRequestCoverage }

/-- Embeds `InsurancePool.is_covered`: false when the agent cannot request
coverage; otherwise compare available coverage against the optional amount,
or against zero when no amount is given. -/
def is_covered (info : AgentInfo) (amount : Option ℚ) : Bool :=
  let ci := get_agent_coverage_info info
  if !ci.can_request_coverage then false
  else
    match amount with
    | some a => decide (a ≤ ci.available_coverage_usd)
    | none => decide (0 < ci.available_coverage_usd)

/-- One external effect of a write flow, in program order: the read-only
premium evaluation, the submission of the approve transaction, the blocking
wait for its receipt, and the submission of the dependent second
transaction (`createCoverage` or `stakeAsAgent`). Submission events carry
the ledger-unit payload of the transaction. -/
inductive ChainEvent
  | callCalculatePremium
  | submitApprove (units : ℤ)
  | waitApproveReceipt
  | submitCreateCoverage (units : ℤ)
  | submitStakeAsAgent (units : ℤ)
  deriving DecidableEq

/-- Which external steps of a write flow succeed, plus the hash returned by
the final submission. A `false` field means the corresponding RPC call
raises when reached. -/
structure ChainEnv where
  callOk : Bool
  submitApproveOk : Bool
  waitApproveOk : Bool
  submitSecondOk : Bool
  secondTxHash : ℕ

/-- True exactly on an approve submission event. -/
def isSubmitApprove : ChainEvent → Bool
  | ChainEvent.submitApprove _ => true
  | _ => false

/-- True exactly on a createCoverage submission event. -/
def isSubmitCreate : ChainEvent → Bool
  | ChainEvent.submitCreateCoverage _ => true
  | _ => false

/-- True exactly on a stakeAsAgent submission event. -/
def isSubmitStake : ChainEvent → Bool
  | ChainEvent.submitStakeAsAgent _ => true
  | _ => false

/-- Embeds `InsurancePool.purchase_coverage` as its sequence of external
effects: evaluate the premium, submit the USDC approve for the premium,
block on its receipt, then submit `createCoverage` for the coverage amount.
A step that raises ends the trace there and the call fails; transaction
building details (nonce, gas, fees) are folded into the submission step
they precede. -/
def purchase_coverage (c : PoolContract) (env : ChainEnv) (amount : ℚ)
    (duration_days : ℕ) (risk_score : ℕ) : Except SdkError ℕ × List ChainEvent :=
  let amount_units := to_usdc_units amount
  let duration_seconds := duration_days * 24 * 60 * 60
  if !env.callOk then
    (Except.error SdkError.transactionFailure, [ChainEvent.callCalculatePremium])
  else
    let premium_units : ℤ :=
      (c.calculatePremium amount_units duration_seconds risk_score : ℤ)
    if !env.submitApproveOk then
      (Except.error SdkError.transactionFailure,
        [ChainEvent.callCalculatePremium, ChainEvent.submitApprove premium_units])
    else if !env.waitApproveOk then
      (Except.error SdkError.transactionFailure,
        [ChainEvent.callCalculatePremium, ChainEvent.submitApprove premium_units,
          ChainEvent.waitApproveReceipt])
    else if !env.submitSecondOk then
      (Except.error SdkError.transactionFailure,
        [ChainEvent.callCalculatePremium, ChainEvent.submitApprove premium_units,
          ChainEvent.waitApproveReceipt, ChainEvent.submitCreateCoverage amount_units])
    else
      (Except.ok env.secondTxHash,
        [ChainEvent.callCalculatePremium, ChainEvent.submitApprove premium_units,
          ChainEvent.waitApproveReceipt, ChainEvent.submitCreateCoverage amount_units])

/-- Embeds `InsurancePool.stake_for_insurance` as its sequence of external
effects: submit the USDC approve for the stake amount, block on its
receipt, then submit `stakeAsAgent`. No local minimum check is performed
here. -/
def stake_for_insurance (env : ChainEnv) (amount : ℚ) :
    Except SdkError ℕ × List ChainEvent :=
  let amount_units := to_usdc_units amount
  if !env.submitApproveOk then
    (Except.error SdkError.transactionFailure, [ChainEvent.submitApprove amount_units])
  else if !env.waitApproveOk then
    (Except.error SdkError.transactionFailure,
      [ChainEvent.submitApprove amount_units, ChainEvent.waitApproveReceipt])
  else if !env.submitSecondOk then
    (Except.error SdkError.transactionFailure,
      [ChainEvent.submitApprove amount_units, ChainEvent.waitApproveReceipt,
        ChainEvent.submitStakeAsAgent amount_units])
  else
    (Except.ok env.secondTxHash,
      [ChainEvent.submitApprove amount_units, ChainEvent.waitApproveReceipt,
        ChainEvent.submitStakeAsAgent amount_units])

end InsurancePool

namespace LobSecRegistry

/-- The on-chain registry state visible for one agent: the result values of
the `isImmunized` and `getThreatLevel` contract calls. -/
structure RegistryView where
  immunized : Bool
  threatLevel : ℕ

/-- Embeds `LobSecRegistry.is_immunized`: the `isImmunized` contract read. -/
def is_immunized (r : RegistryView) : Bool := r.immunized

/-- Embeds `LobSecRegistry.get_threat_level`: the `getThreatLevel` read. -/
def get_threat_level (r : RegistryView) : ℕ := r.threatLevel

/-- The dictionary returned by `LobSecRegistry.get_agent_status`. -/
structure AgentStatus where
  address : String
  immunized : Bool
  threat_level : ℕ
  safe : Bool

/-- Embeds `LobSecRegistry.get_agent_status`: each dictionary entry is a
fresh contract read; `safe` is `get_threat_level(agent) < 50 and
is_immunized(agent)`. -/
def get_agent_status (agent : String) (r : RegistryView) : AgentStatus :=
  { address := agent
    immunized := is_immunized r
    threat_level := get_threat_level r
    safe := decide (get_threat_level r < 50) && is_immunized r }

/-- One external registry read. -/
inductive RegRead
  | isImmunizedRead
  | threatLevelRead
  deriving DecidableEq

/-- Read-trace view of `get_agent_status`: the dictionary literal evaluates
its entries in order, so the reads are `is_immunized` (immunized field),
`get_threat_level` (threat_level field), `get_threat_level` (left operand
of safe) and, because `and` short-circuits, `is_immunized` again only when
the threat comparison is true. -/
def get_agent_status_reads (agent : String) (r : RegistryView) :
    AgentStatus × List RegRead :=
  (get_agent_status agent r,
    [RegRead.isImmunizedRead, RegRead.threatLevelRead, RegRead.threatLevelRead] ++
      (if get_threat_level r < 50 then [RegRead.isImmunizedRead] else []))

end LobSecRegistry

namespace Agent

/-- The dictionary returned by `Agent.get_premium_quote`. -/
structure Quote where
  coverage_amount_usd : ℚ
  duration_days : ℕ
  base_premium_usd : ℚ
  discount_percent : ℚ
  final_premium_usd : ℚ
  immunized : Bool

/-- Embeds `Agent.stake`: reject amounts below 100 with the invalid-amount
error (the Python `ValueError`) before any network interaction, otherwise
delegate to `stake_for_insurance`. -/
def stake (env : InsurancePool.ChainEnv) (usd : ℚ) :
    Except SdkError ℕ × List InsurancePool.ChainEvent :=
  if usd < 100 then (Except.error SdkError.invalidAmount, [])
  else InsurancePool.stake_for_insurance env usd

/-- Embeds `Agent.get_premium_quote`: base premium from the pool client at
risk score 1000, a 50 percent discount when the registry status reports the
agent immunized, monetary fields rounded to two decimals for the returned
dictionary. -/
def get_premium_quote (agent : String) (c : InsurancePool.PoolContract)
    (r : LobSecRegistry.RegistryView) (coverage_amount : ℚ)
    (duration_days : ℕ) : Quote :=
  let base_premium := InsurancePool.calculate_premium c coverage_amount duration_days 1000
  let status := LobSecRegistry.get_agent_status agent r
  let discount : ℚ := if status.immunized then 1 / 2 else 0
  let final_premium := base_premium * (1 - discount)
  { coverage_amount_usd := coverage_amount
    duration_days := duration_days
    base_premium_usd := round2 base_premium
    discount_percent := discount * 100
    final_premium_usd := round2 final_premium
    immunized := status.immunized }

end Agent

end LobsecSdk

namespace LobsecSdk

lemma ratTrunc_intCast (k : ℤ) : ratTrunc (k : ℚ) = k := by
  unfold ratTrunc
  split <;> simp

lemma pow_decimals_eq : (10 : ℚ) ^ InsurancePool.USDC_DECIMALS = 10 ^ 6 := rfl

/-- Claim C1: for every non-negative decimal amount exactly representable at
six decimal places, converting to ledger units and back is the identity. -/
theorem C1_usdc_units_roundtrip (x : ℚ) (_hx : 0 ≤ x)
    (hrep : ∃ k : ℤ, x * 10 ^ 6 = (k : ℚ)) :
    InsurancePool.from_usdc_units (InsurancePool.to_usdc_units x) = x := by
  obtain ⟨k, hk⟩ := hrep
  unfold InsurancePool.to_usdc_units InsurancePool.from_usdc_units
  rw [pow_decimals_eq, hk, ratTrunc_intCast, ← hk]
  field_simp

/-- Witness for C1 at the representable input 3/2. -/
theorem C1_witness :
    InsurancePool.from_usdc_units (InsurancePool.to_usdc_units (3 / 2)) = 3 / 2 :=
  C1_usdc_units_roundtrip (3 / 2) (by norm_num) ⟨1500000, by norm_num⟩

/-- Claim C2 counterexample: at the negative input -1 the conversion does
not fail with the invalid-amount error; it returns the integer -1000000. -/
theorem C2_counterexample :
    InsurancePool.to_usdc_units_run (-1) = Except.ok (-1000000) ∧
      InsurancePool.to_usdc_units_run (-1) ≠ Except.error SdkError.invalidAmount := by
  have h : InsurancePool.to_usdc_units_run (-1) = Except.ok (-1000000) := by
    unfold InsurancePool.to_usdc_units_run InsurancePool.to_usdc_units
    rw [pow_decimals_eq, show ((-1 : ℚ) * 10 ^ 6) = ((-1000000 : ℤ) : ℚ) by norm_num,
      ratTrunc_intCast]
  exact ⟨h, by rw [h]; exact fun hc => Except.noConfusion hc⟩

/-- Claim C2 amended: for every negative input the conversion succeeds
(no error is raised), returning the truncation of the scaled amount, a
nonpositive integer. -/
theorem C2_amended_negative_input_succeeds (x : ℚ) (hx : x < 0) :
    InsurancePool.to_usdc_units_run x = Except.ok (ratTrunc (x * 10 ^ 6)) ∧
      InsurancePool.to_usdc_units x ≤ 0 := by
  have hneg : x * 10 ^ 6 < 0 := by nlinarith
  constructor
  · unfold InsurancePool.to_usdc_units_run InsurancePool.to_usdc_units
    rw [pow_decimals_eq]
  · unfold InsurancePool.to_usdc_units ratTrunc
    rw [pow_decimals_eq, if_neg (by linarith)]
    exact Int.ceil_le.mpr (by push_cast; exact hneg.le)

/-- Witness for the amended C2 at the negative input -1. -/
theorem C2_amended_witness :
    InsurancePool.to_usdc_units_run (-1) = Except.ok (ratTrunc ((-1) * 10 ^ 6)) ∧
      InsurancePool.to_usdc_units (-1) ≤ 0 :=
  C2_amended_negative_input_succeeds (-1) (by norm_num)

/-- Claim C10: the units-to-decimal conversion is total over all integers,
negative ones included, and returns the input divided by ten to the sixth;
stated multiplicatively so the division is genuinely inverted. -/
theorem C10_from_usdc_units_total (u : ℤ) :
    InsurancePool.from_usdc_units u * 10 ^ 6 = (u : ℚ) ∧
      InsurancePool.from_usdc_units u = (u : ℚ) / 10 ^ 6 := by
  unfold InsurancePool.from_usdc_units
  rw [pow_decimals_eq]
  constructor
  · field_simp
  · rfl

end LobsecSdk

namespace LobsecSdk

/-- Claim C6: coverage check is false whenever the agent cannot request
coverage; when it can, the check with an amount holds iff the available
coverage reaches that amount, and the check without an amount holds iff
any coverage is available. -/
theorem C6_is_covered_spec (info : InsurancePool.AgentInfo) :
    (info.canRequestCoverage = false →
      ∀ a : Option ℚ, InsurancePool.is_covered info a = false) ∧
    (info.canRequestCoverage = true →
      ∀ amt : ℚ,
        (InsurancePool.is_covered info (some amt) = true ↔
          InsurancePool.from_usdc_units (info.availableCoverage : ℤ) ≥ amt) ∧
        (InsurancePool.is_covered info none = true ↔
          InsurancePool.from_usdc_units (info.availableCoverage : ℤ) > 0)) := by
  constructor
  · intro h a
    simp [InsurancePool.is_covered, InsurancePool.get_agent_coverage_info, h]
  · intro h amt
    constructor <;>
      simp [InsurancePool.is_covered, InsurancePool.get_agent_coverage_info, h,
        ge_iff_le]

/-- Witness for C6 at two concrete agent-info readings. -/
theorem C6_witness :
    InsurancePool.is_covered ⟨0, 0, 0, 5000000, false⟩ none = false ∧
      (InsurancePool.is_covered ⟨0, 0, 0, 5000000, true⟩ (some 3) = true ↔
        InsurancePool.from_usdc_units ((5000000 : ℕ) : ℤ) ≥ 3) :=
  ⟨(C6_is_covered_spec ⟨0, 0, 0, 5000000, false⟩).1 rfl none,
    ((C6_is_covered_spec ⟨0, 0, 0, 5000000, true⟩).2 rfl 3).1⟩

/-- Claim C7: the safe flag of the registry status is true iff the threat
level is below 50 and the agent is immunized; in particular it is false at
the boundary threat level 50. -/
theorem C7_safe_flag (agent : String) (r : LobSecRegistry.RegistryView) :
    ((LobSecRegistry.get_agent_status agent r).safe = true ↔
      r.threatLevel < 50 ∧ r.immunized = true) ∧
    (r.threatLevel = 50 → (LobSecRegistry.get_agent_status agent r).safe = false) := by
  constructor
  · simp [LobSecRegistry.get_agent_status, LobSecRegistry.is_immunized,
      LobSecRegistry.get_threat_level]
  · intro h
    simp [LobSecRegistry.get_agent_status, LobSecRegistry.is_immunized,
      LobSecRegistry.get_threat_level, h]

/-- Witness for C7 at the boundary reading: threat level exactly 50 with an
immunized agent is not safe. -/
theorem C7_witness :
    (LobSecRegistry.get_agent_status "0xagent" ⟨true, 50⟩).safe = false :=
  (C7_safe_flag "0xagent" ⟨true, 50⟩).2 rfl

/-- Claim C8: pool utilization is 0 when reserves are 0, and otherwise is
100 times coverage over reserves, rounded to two decimal places. -/
theorem C8_utilization (p : InsurancePool.PoolView) :
    (p.totalReserves = 0 →
      (InsurancePool.get_pool_info p).utilization_percent = 0) ∧
    (0 < p.totalReserves →
      (InsurancePool.get_pool_info p).utilization_percent =
        round2 (100 * (p.totalCoverageProvided : ℚ) / (p.totalReserves : ℚ))) := by
  constructor
  · intro h
    simp only [InsurancePool.get_pool_info, h]
    norm_num [round2, roundHalfEven]
  · intro h
    simp only [InsurancePool.get_pool_info, if_pos h]
    ring_nf

/-- Witness for C8 at empty reserves and at reserves 200 with coverage 50. -/
theorem C8_witness :
    (InsurancePool.get_pool_info ⟨0, 7, 0⟩).utilization_percent = 0 ∧
      (InsurancePool.get_pool_info ⟨200, 50, 0⟩).utilization_percent =
        round2 (100 * ((50 : ℕ) : ℚ) / ((200 : ℕ) : ℚ)) :=
  ⟨(C8_utilization ⟨0, 7, 0⟩).1 rfl, (C8_utilization ⟨200, 50, 0⟩).2 (by norm_num)⟩

/-- Claim C4, evidence of the divergence: every invocation of
get_agent_status issues the external threat-level query twice, not once
(once for the threat_level field and once more for the safe derivation). -/
theorem C4_threat_level_queried_twice (agent : String)
    (r : LobSecRegistry.RegistryView) :
    ((LobSecRegistry.get_agent_status_reads agent r).2.count
      LobSecRegistry.RegRead.threatLevelRead) = 2 := by
  unfold LobSecRegistry.get_agent_status_reads
  split <;> simp [List.count_cons]

end LobsecSdk

namespace LobsecSdk

/-- Claim C3: in every execution of purchase_coverage, if the createCoverage
write is submitted then no createCoverage submission precedes the first
approve submission and an approve submission exists (the approve write
comes first), and when the wait for the approve receipt fails the
createCoverage write is never submitted. -/
theorem C3_approve_then_create (c : InsurancePool.PoolContract)
    (env : InsurancePool.ChainEnv) (amount : ℚ) (duration_days risk_score : ℕ) :
    ((InsurancePool.purchase_coverage c env amount duration_days risk_score).2.any
        InsurancePool.isSubmitCreate = true →
      ((InsurancePool.purchase_coverage c env amount duration_days risk_score).2.takeWhile
          (fun e => !(InsurancePool.isSubmitApprove e))).any
          InsurancePool.isSubmitCreate = false ∧
      (InsurancePool.purchase_coverage c env amount duration_days risk_score).2.any
        InsurancePool.isSubmitApprove = true) ∧
    (env.waitApproveOk = false →
      (InsurancePool.purchase_coverage c env amount duration_days risk_score).2.any
        InsurancePool.isSubmitCreate = false) := by
  rcases env with ⟨co, sa, wa, ss, h2⟩
  cases co <;> cases sa <;> cases wa <;> cases ss <;>
    simp [InsurancePool.purchase_coverage, InsurancePool.isSubmitCreate,
      InsurancePool.isSubmitApprove, List.takeWhile]

/-- Witness for C3: a fully successful execution and one whose approve
receipt wait fails, at a concrete contract and concrete inputs. -/
theorem C3_witness :
    (((InsurancePool.purchase_coverage ⟨fun _ _ _ => 42⟩ ⟨true, true, true, true, 7⟩
          1 1 1000).2.takeWhile (fun e => !(InsurancePool.isSubmitApprove e))).any
        InsurancePool.isSubmitCreate = false ∧
      (InsurancePool.purchase_coverage ⟨fun _ _ _ => 42⟩ ⟨true, true, true, true, 7⟩
          1 1 1000).2.any InsurancePool.isSubmitApprove = true) ∧
    (InsurancePool.purchase_coverage ⟨fun _ _ _ => 42⟩ ⟨true, true, false, true, 7⟩
        1 1 1000).2.any InsurancePool.isSubmitCreate = false :=
  ⟨(C3_approve_then_create ⟨fun _ _ _ => 42⟩ ⟨true, true, true, true, 7⟩ 1 1 1000).1
      (by simp [InsurancePool.purchase_coverage, InsurancePool.isSubmitCreate]),
    (C3_approve_then_create ⟨fun _ _ _ => 42⟩ ⟨true, true, false, true, 7⟩ 1 1 1000).2
      rfl⟩

/-- Claim C5: staking below 100 dollars fails with the invalid-amount error
and an empty external trace (no network call), and staking exactly 100 does
not fail the minimum check: the call delegates to the staking write flow. -/
theorem C5_stake_minimum (env : InsurancePool.ChainEnv) (usd : ℚ) :
    (usd < 100 →
      Agent.stake env usd =
        (Except.error SdkError.invalidAmount, ([] : List InsurancePool.ChainEvent))) ∧
    Agent.stake env 100 = InsurancePool.stake_for_insurance env 100 := by
  constructor
  · intro h
    simp [Agent.stake, h]
  · simp [Agent.stake]

/-- Witness for C5 at a concrete environment, with the below-minimum amount
50 and the boundary amount 100. -/
theorem C5_witness :
    Agent.stake ⟨true, true, true, true, 7⟩ 50 =
      (Except.error SdkError.invalidAmount, ([] : List InsurancePool.ChainEvent)) ∧
    Agent.stake ⟨true, true, true, true, 7⟩ 100 =
      InsurancePool.stake_for_insurance ⟨true, true, true, true, 7⟩ 100 :=
  ⟨(C5_stake_minimum ⟨true, true, true, true, 7⟩ 50).1 (by norm_num),
    (C5_stake_minimum ⟨true, true, true, true, 7⟩ 100).2⟩

end LobsecSdk

namespace LobsecSdk

/-- Claim C9 counterexample: with a pool contract whose premium evaluates to
123456 ledger units (base premium 0.123456 dollars) and a non-immunized
registry reading (discount 0), the returned final premium is the rounded
0.12 and differs from base_premium times one minus the applied discount. -/
theorem C9_counterexample :
    (Agent.get_premium_quote "0xagent" ⟨fun _ _ _ => 123456⟩ ⟨false, 0⟩
        1000 30).final_premium_usd ≠
      InsurancePool.calculate_premium ⟨fun _ _ _ => 123456⟩ 1000 30 1000 *
        (1 - (Agent.get_premium_quote "0xagent" ⟨fun _ _ _ => 123456⟩ ⟨false, 0⟩
          1000 30).discount_percent / 100) := by
  have hbase :
      InsurancePool.calculate_premium ⟨fun _ _ _ => 123456⟩ 1000 30 1000 =
        123456 / 10 ^ 6 := by
    unfold InsurancePool.calculate_premium InsurancePool.from_usdc_units
    rw [pow_decimals_eq]
    norm_num
  have hdisc :
      (Agent.get_premium_quote "0xagent" ⟨fun _ _ _ => 123456⟩ ⟨false, 0⟩
        1000 30).discount_percent = 0 := by
    simp [Agent.get_premium_quote, LobSecRegistry.get_agent_status,
      LobSecRegistry.is_immunized]
  have hfin :
      (Agent.get_premium_quote "0xagent" ⟨fun _ _ _ => 123456⟩ ⟨false, 0⟩
        1000 30).final_premium_usd = round2 (123456 / 10 ^ 6) := by
    simp [Agent.get_premium_quote, LobSecRegistry.get_agent_status,
      LobSecRegistry.is_immunized, hbase]
  rw [hfin, hdisc, hbase]
  have hr : round2 ((123456 : ℚ) / 10 ^ 6) = 12 / 100 := by
    simp only [round2, roundHalfEven]
    rw [show ((123456 : ℚ) / 10 ^ 6 * 100) = 7716 / 625 by norm_num]
    rw [show ⌊(7716 : ℚ) / 625⌋ = 12 by norm_num]
    norm_num
  rw [hr]
  norm_num

/-- Claim C9 amended: the quote computes the base premium via the pool
client at fixed risk score 1000, applies a 50 percent discount exactly when
the registry reports the agent immunized (0 otherwise), returns the rounded
quantity round2 of base_premium times one minus the discount as the final
premium (the base figure being likewise rounded), and carries the
immunization flag it used. -/
theorem C9_amended_quote (agent : String) (c : InsurancePool.PoolContract)
    (r : LobSecRegistry.RegistryView) (amount : ℚ) (dd : ℕ) :
    (Agent.get_premium_quote agent c r amount dd).base_premium_usd =
      round2 (InsurancePool.calculate_premium c amount dd 1000) ∧
    (Agent.get_premium_quote agent c r amount dd).discount_percent =
      (if r.immunized then (1 : ℚ) / 2 else 0) * 100 ∧
    (Agent.get_premium_quote agent c r amount dd).final_premium_usd =
      round2 (InsurancePool.calculate_premium c amount dd 1000 *
        (1 - (if r.immunized then (1 : ℚ) / 2 else 0))) ∧
    (Agent.get_premium_quote agent c r amount dd).immunized = r.immunized := by
  simp [Agent.get_premium_quote, LobSecRegistry.get_agent_status,
    LobSecRegistry.is_immunized]

end LobsecSdk
